import Mathlib

/-!
# Verification of the GNS3 provider's resource lifecycle functions

This file gives a shallow embedding of the five resource kinds of the
provider (cloud, switch, template, docker container, QEMU virtual machine)
and proves properties of their Create/Read/Update/Delete/Import functions.

Modelling conventions:
* HTTP bodies are modelled as already-decoded JSON values (`JVal`); a field
  absent from an object decodes to the Go zero value of the target field.
* Each lifecycle function receives the server's responses to the requests it
  may issue as explicit arguments, and returns the list of requests actually
  issued (`trace`), the final resource state (`state`, mirroring the mutated
  `*schema.ResourceData`), and `err`, mirroring the returned Go `error`
  (`none` = `nil`).
* Transport-level failures (`client.Do` returning a Go error) are outside the
  model; every issued request is assumed to yield a `Response`.
* `d.GetOk` returns `true` exactly when the attribute holds a non-zero value,
  as in the terraform SDK (empty string / zero int / empty collection are
  "not ok").
-/

/-- A JSON value, as decoded from or encoded into a request/response body. -/
inductive JVal where
  | s (v : String)
  | i (v : Int)
  | b (v : Bool)
  | list (vs : List JVal)
  | obj (fields : List (String × JVal))

/-- Keys of a JSON object (empty for non-objects). -/
def JVal.objKeys : JVal → List String
  | .obj fields => fields.map Prod.fst
  | _ => []

/-- Look up a string field of a JSON object (Go decodes a missing or
non-string field to the zero value, recovered with `(·.getD "")`). -/
def JVal.getStr : JVal → String → Option String
  | .obj fields, k =>
    match fields.lookup k with
    | some (.s v) => some v
    | _ => none
  | _, _ => none

/-- Look up an integer field of a JSON object (a JSON number decodes to
Go `float64`; the source truncates it back to `int`). -/
def JVal.getInt : JVal → String → Option Int
  | .obj fields, k =>
    match fields.lookup k with
    | some (.i v) => some v
    | _ => none
  | _, _ => none

/-- Look up an object-valued field of a JSON object. -/
def JVal.getObj : JVal → String → Option (List (String × JVal))
  | .obj fields, k =>
    match fields.lookup k with
    | some (.obj fs) => some fs
    | _ => none
  | _, _ => none

/-- An HTTP request issued by a lifecycle function. -/
structure Request where
  method : String
  url : String
  body : Option JVal

/-- The server's answer to one request: status code and decoded body. -/
structure Response where
  status : Nat
  body : JVal

/-- The error values a lifecycle function can return.  `httpErr` mirrors a
`fmt.Errorf` built from a non-success status; its `body` field is `some`
exactly when the Go format string embeds the response body.  `protocolErr`
mirrors the "server reported success but violated the contract" errors. -/
inductive OpError where
  | httpErr (status : Nat) (body : Option JVal)
  | protocolErr (msg : String)

/-- Result of one lifecycle call: the requests issued, the final state of the
resource data, and the returned error (`none` = success). -/
structure OpResult (α : Type) where
  trace : List Request
  state : α
  err : Option OpError

/-- The provider configuration handed to every callback via `meta`. -/
structure ProviderConfig where
  host : String

/-- `true` iff an `httpErr` that embeds the response body. -/
def errSurfacesBody : Option OpError → Bool
  | some (.httpErr _ (some _)) => true
  | _ => false

/-! ## Go string splitting, as used by the importers

The importers use `strings.SplitN(raw, sep, 2)` and `strings.Contains` with
one-character separators (`"/"` and `","`), so they are modelled over a
`Char` separator. -/

/-- Split a character list at the first occurrence of `c`; `none` when `c`
does not occur. -/
def splitFirstChar (c : Char) : List Char → Option (List Char × List Char)
  | [] => none
  | x :: xs =>
    if x = c then some ([], xs)
    else
      match splitFirstChar c xs with
      | some (pre, post) => some (x :: pre, post)
      | none => none

/-- Go `strings.SplitN(s, c, 2)` for a one-character separator: the part
before the first `c` and everything after it, or `[s]` when `c` is absent. -/
def goSplitN2 (s : String) (c : Char) : List String :=
  match splitFirstChar c s.toList with
  | some (pre, post) => [String.mk pre, String.mk post]
  | none => [s]

/-- Go `strings.Contains(s, c)` for a one-character separator. -/
def goContainsChar (s : String) (c : Char) : Bool :=
  (splitFirstChar c s.toList).isSome

/-- Outcome of a `StateContext` importer: either `project_id` is set and the
resource ID replaced (`ok project id`), or the raw key is rejected. -/
inductive ImportResult where
  | ok (project id : String)
  | invalid (raw : String)
deriving DecidableEq, Repr

/-! ## Cloud kind (`resource_gns3_cloud`) -/

/-- The attributes of one cloud resource together with its terraform ID
(`id` = `d.Id()`, empty when unset). -/
structure CloudData where
  id : String
  project_id : String
  name : String
  compute_id : String
  x : Int
  y : Int
  symbol : String
  cloud_id : String
deriving DecidableEq, Repr

/-- Per-field `d.HasChange` flags consulted by the cloud Update. -/
structure CloudChanges where
  name : Bool
  compute_id : Bool
  x : Bool
  y : Bool
  symbol : Bool
deriving DecidableEq, Repr

/-- The `Cloud` request struct (`json` tags: `name`, `node_type`,
`compute_id,omitempty`, `node_id,omitempty`, `x,omitempty`, `y,omitempty`,
`symbol,omitempty`). -/
structure Cloud where
  name : String
  nodeType : String
  computeID : String
  nodeID : String
  x : Int
  y : Int
  symbol : String

/-- `json.Marshal` of a `Cloud` value, honouring the `omitempty` tags. -/
def Cloud.marshal (c : Cloud) : JVal :=
  .obj ([("name", .s c.name), ("node_type", .s c.nodeType)] ++
    (if c.computeID = "" then [] else [("compute_id", .s c.computeID)]) ++
    (if c.nodeID = "" then [] else [("node_id", .s c.nodeID)]) ++
    (if c.x = 0 then [] else [("x", .i c.x)]) ++
    (if c.y = 0 then [] else [("y", .i c.y)]) ++
    (if c.symbol = "" then [] else [("symbol", .s c.symbol)]))

/-- `resourceGns3CloudCreate`: POST the marshalled `Cloud`; non-201 fails
surfacing the best-effort-decoded body; a missing/empty `node_id` on success
is a protocol error; otherwise the ID and `cloud_id` are set. -/
def resourceGns3CloudCreate (config : ProviderConfig) (d : CloudData)
    (createResp : Response) : OpResult CloudData :=
  let cloud : Cloud :=
    { name := d.name, nodeType := "cloud", computeID := d.compute_id,
      nodeID := "", x := d.x, y := d.y, symbol := d.symbol }
  let url := config.host ++ "/v2/projects/" ++ d.project_id ++ "/nodes"
  let req : Request := { method := "POST", url := url, body := some cloud.marshal }
  if createResp.status ≠ 201 then
    { trace := [req], state := d,
      err := some (.httpErr createResp.status (some createResp.body)) }
  else
    let nodeID := (createResp.body.getStr "node_id").getD ""
    if nodeID = "" then
      { trace := [req], state := d,
        err := some (.protocolErr "failed to retrieve node_id from GNS3 API response") }
    else
      { trace := [req], state := { d with id := nodeID, cloud_id := nodeID }, err := none }

/-- `resourceGns3CloudRead`: GET the node; 404 clears the ID and succeeds;
any other non-200 fails surfacing status and body; 200 succeeds. -/
def resourceGns3CloudRead (config : ProviderConfig) (d : CloudData)
    (resp : Response) : OpResult CloudData :=
  let url := config.host ++ "/v2/projects/" ++ d.project_id ++ "/nodes/" ++ d.id
  let req : Request := { method := "GET", url := url, body := none }
  if resp.status = 404 then
    { trace := [req], state := { d with id := "" }, err := none }
  else if resp.status ≠ 200 then
    { trace := [req], state := d, err := some (.httpErr resp.status (some resp.body)) }
  else
    { trace := [req], state := d, err := none }

/-- The `updateData` map assembled by `resourceGns3CloudUpdate`, one
conditional insert per `d.HasChange` test, in source order. -/
def cloudUpdateData (d : CloudData) (ch : CloudChanges) : List (String × JVal) :=
  (if ch.name then [("name", .s d.name)] else []) ++
  (if ch.compute_id then [("compute_id", .s d.compute_id)] else []) ++
  (if ch.x then [("x", .i d.x)] else []) ++
  (if ch.y then [("y", .i d.y)] else []) ++
  (if ch.symbol then [("symbol", .s d.symbol)] else [])

/-- `resourceGns3CloudUpdate`: empty delta returns nil without a request;
otherwise PUT the delta, fail on non-200 surfacing the body, and on success
re-read the node. -/
def resourceGns3CloudUpdate (config : ProviderConfig) (d : CloudData)
    (ch : CloudChanges) (putResp readResp : Response) : OpResult CloudData :=
  let updateData := cloudUpdateData d ch
  if updateData.isEmpty then
    { trace := [], state := d, err := none }
  else
    let url := config.host ++ "/v2/projects/" ++ d.project_id ++ "/nodes/" ++ d.id
    let req : Request := { method := "PUT", url := url, body := some (.obj updateData) }
    if putResp.status ≠ 200 then
      { trace := [req], state := d,
        err := some (.httpErr putResp.status (some putResp.body)) }
    else
      let r := resourceGns3CloudRead config d readResp
      { trace := req :: r.trace, state := r.state, err := r.err }

/-- `resourceGns3CloudDelete`: DELETE the node; any status other than 204
fails (status only, no body) leaving the ID intact; 204 clears the ID. -/
def resourceGns3CloudDelete (config : ProviderConfig) (d : CloudData)
    (resp : Response) : OpResult CloudData :=
  let url := config.host ++ "/v2/projects/" ++ d.project_id ++ "/nodes/" ++ d.id
  let req : Request := { method := "DELETE", url := url, body := none }
  if resp.status ≠ 204 then
    { trace := [req], state := d, err := some (.httpErr resp.status none) }
  else
    { trace := [req], state := { d with id := "" }, err := none }

/-- `resourceGns3CloudImporter`: accept exactly `<project_id>/<node_id>`
(split at the first `/`). -/
def resourceGns3CloudImporter (raw : String) : ImportResult :=
  match goSplitN2 raw '/' with
  | [projectID, nodeID] => .ok projectID nodeID
  | _ => .invalid raw

/-! ## Switch kind (`resource_gns3_switch`) -/

/-- The attributes of one switch resource together with its terraform ID. -/
structure SwitchData where
  id : String
  project_id : String
  name : String
  compute_id : String
  x : Int
  y : Int
  symbol : String
  switch_id : String
deriving DecidableEq, Repr

/-- Per-field `d.HasChange` flags consulted by the switch Update (the switch
Update never tests `symbol`, unlike the cloud one). -/
structure SwitchChanges where
  name : Bool
  compute_id : Bool
  x : Bool
  y : Bool
deriving DecidableEq, Repr

/-- The `Switch` request struct, identical in shape and tags to `Cloud`. -/
structure Switch where
  name : String
  nodeType : String
  computeID : String
  nodeID : String
  x : Int
  y : Int
  symbol : String

/-- `json.Marshal` of a `Switch` value, honouring the `omitempty` tags. -/
def Switch.marshal (c : Switch) : JVal :=
  .obj ([("name", .s c.name), ("node_type", .s c.nodeType)] ++
    (if c.computeID = "" then [] else [("compute_id", .s c.computeID)]) ++
    (if c.nodeID = "" then [] else [("node_id", .s c.nodeID)]) ++
    (if c.x = 0 then [] else [("x", .i c.x)]) ++
    (if c.y = 0 then [] else [("y", .i c.y)]) ++
    (if c.symbol = "" then [] else [("symbol", .s c.symbol)]))

/-- `resourceGns3SwitchCreate`: same control flow as the cloud Create with
node type `ethernet_switch`. -/
def resourceGns3SwitchCreate (config : ProviderConfig) (d : SwitchData)
    (createResp : Response) : OpResult SwitchData :=
  let sw : Switch :=
    { name := d.name, nodeType := "ethernet_switch", computeID := d.compute_id,
      nodeID := "", x := d.x, y := d.y, symbol := d.symbol }
  let url := config.host ++ "/v2/projects/" ++ d.project_id ++ "/nodes"
  let req : Request := { method := "POST", url := url, body := some sw.marshal }
  if createResp.status ≠ 201 then
    { trace := [req], state := d,
      err := some (.httpErr createResp.status (some createResp.body)) }
  else
    let nodeID := (createResp.body.getStr "node_id").getD ""
    if nodeID = "" then
      { trace := [req], state := d,
        err := some (.protocolErr "failed to retrieve node_id from GNS3 API response") }
    else
      { trace := [req], state := { d with id := nodeID, switch_id := nodeID }, err := none }

/-- `resourceGns3SwitchRead`: 404 clears the ID; other non-200 fails with
status and body; 200 succeeds without touching attributes. -/
def resourceGns3SwitchRead (config : ProviderConfig) (d : SwitchData)
    (resp : Response) : OpResult SwitchData :=
  let url := config.host ++ "/v2/projects/" ++ d.project_id ++ "/nodes/" ++ d.id
  let req : Request := { method := "GET", url := url, body := none }
  if resp.status = 404 then
    { trace := [req], state := { d with id := "" }, err := none }
  else if resp.status ≠ 200 then
    { trace := [req], state := d, err := some (.httpErr resp.status (some resp.body)) }
  else
    { trace := [req], state := d, err := none }

/-- The `updateData` map assembled by `resourceGns3SwitchUpdate` (no
`symbol` entry: the source never checks it here). -/
def switchUpdateData (d : SwitchData) (ch : SwitchChanges) : List (String × JVal) :=
  (if ch.name then [("name", .s d.name)] else []) ++
  (if ch.compute_id then [("compute_id", .s d.compute_id)] else []) ++
  (if ch.x then [("x", .i d.x)] else []) ++
  (if ch.y then [("y", .i d.y)] else [])

/-- `resourceGns3SwitchUpdate`: same control flow as the cloud Update. -/
def resourceGns3SwitchUpdate (config : ProviderConfig) (d : SwitchData)
    (ch : SwitchChanges) (putResp readResp : Response) : OpResult SwitchData :=
  let updateData := switchUpdateData d ch
  if updateData.isEmpty then
    { trace := [], state := d, err := none }
  else
    let url := config.host ++ "/v2/projects/" ++ d.project_id ++ "/nodes/" ++ d.id
    let req : Request := { method := "PUT", url := url, body := some (.obj updateData) }
    if putResp.status ≠ 200 then
      { trace := [req], state := d,
        err := some (.httpErr putResp.status (some putResp.body)) }
    else
      let r := resourceGns3SwitchRead config d readResp
      { trace := req :: r.trace, state := r.state, err := r.err }

/-- `resourceGns3SwitchDelete`: only 204 succeeds (and clears the ID); any
other status, 404 included, is an error carrying the status alone. -/
def resourceGns3SwitchDelete (config : ProviderConfig) (d : SwitchData)
    (resp : Response) : OpResult SwitchData :=
  let url := config.host ++ "/v2/projects/" ++ d.project_id ++ "/nodes/" ++ d.id
  let req : Request := { method := "DELETE", url := url, body := none }
  if resp.status ≠ 204 then
    { trace := [req], state := d, err := some (.httpErr resp.status none) }
  else
    { trace := [req], state := { d with id := "" }, err := none }

/-- `resourceGns3SwitchImporter`: accept exactly `<project_id>/<node_id>`. -/
def resourceGns3SwitchImporter (raw : String) : ImportResult :=
  match goSplitN2 raw '/' with
  | [projectID, nodeID] => .ok projectID nodeID
  | _ => .invalid raw

/-! ## Template kind (`resource_gns3_template`) -/

/-- The attributes of one template resource together with its terraform ID. -/
structure TemplateData where
  id : String
  project_id : String
  template_id : String
  name : String
  compute_id : String
  start : Bool
  x : Int
  y : Int
deriving DecidableEq, Repr

/-- Per-field change flags for the template Update.  The source's
`resourceGns3TemplateUpdate` never calls `d.HasChange`, so these flags are
carried but never consulted. -/
structure TemplateChanges where
  name : Bool
  compute_id : Bool
  x : Bool
  y : Bool
deriving DecidableEq, Repr

/-- The creation payload map of `resourceGns3TemplateCreate`. -/
def templateCreateData (d : TemplateData) : List (String × JVal) :=
  [("name", .s d.name), ("compute_id", .s d.compute_id), ("x", .i d.x), ("y", .i d.y)]

/-- `resourceGns3TemplateCreate`: POST to the template-instantiation
endpoint; non-201 fails with the status alone (no body in the message);
a missing `node_id` is a protocol error; then, when `start` is set, POST the
start endpoint and fail on non-200 (status alone) with the ID already set. -/
def resourceGns3TemplateCreate (config : ProviderConfig) (d : TemplateData)
    (createResp startResp : Response) : OpResult TemplateData :=
  let url := config.host ++ "/v2/projects/" ++ d.project_id ++ "/templates/" ++ d.template_id
  let req : Request := { method := "POST", url := url, body := some (.obj (templateCreateData d)) }
  if createResp.status ≠ 201 then
    { trace := [req], state := d, err := some (.httpErr createResp.status none) }
  else
    let nodeID := (createResp.body.getStr "node_id").getD ""
    if nodeID = "" then
      { trace := [req], state := d,
        err := some (.protocolErr "failed to retrieve node_id from GNS3 API response") }
    else
      let d1 := { d with id := nodeID }
      if d.start then
        let startURL := config.host ++ "/v2/projects/" ++ d.project_id ++ "/nodes/" ++ nodeID ++ "/start"
        let startReq : Request := { method := "POST", url := startURL, body := none }
        if startResp.status ≠ 200 then
          { trace := [req, startReq], state := d1,
            err := some (.httpErr startResp.status none) }
        else
          { trace := [req, startReq], state := d1, err := none }
      else
        { trace := [req], state := d1, err := none }

/-- `resourceGns3TemplateRead`: 404 clears the ID; other non-200 fails with
status and body; 200 projects `name`, `x` and `y` from the response. -/
def resourceGns3TemplateRead (config : ProviderConfig) (d : TemplateData)
    (resp : Response) : OpResult TemplateData :=
  let url := config.host ++ "/v2/projects/" ++ d.project_id ++ "/nodes/" ++ d.id
  let req : Request := { method := "GET", url := url, body := none }
  if resp.status = 404 then
    { trace := [req], state := { d with id := "" }, err := none }
  else if resp.status ≠ 200 then
    { trace := [req], state := d, err := some (.httpErr resp.status (some resp.body)) }
  else
    let d1 := { d with name := (resp.body.getStr "name").getD d.name }
    let d2 := match resp.body.getInt "x" with
      | some v => { d1 with x := v }
      | none => d1
    let d3 := match resp.body.getInt "y" with
      | some v => { d2 with y := v }
      | none => d2
    { trace := [req], state := d3, err := none }

/-- The update payload of `resourceGns3TemplateUpdate`: always the full
`{name, compute_id, x, y}` map, with no change detection. -/
def templateUpdateData (d : TemplateData) : List (String × JVal) :=
  [("name", .s d.name), ("compute_id", .s d.compute_id), ("x", .i d.x), ("y", .i d.y)]

/-- `resourceGns3TemplateUpdate`: unconditionally PUT the full payload (the
change flags are ignored by the source); non-200 fails with the status alone;
on success re-read the node. -/
def resourceGns3TemplateUpdate (config : ProviderConfig) (d : TemplateData)
    (_ch : TemplateChanges) (putResp readResp : Response) : OpResult TemplateData :=
  let url := config.host ++ "/v2/projects/" ++ d.project_id ++ "/nodes/" ++ d.id
  let req : Request := { method := "PUT", url := url, body := some (.obj (templateUpdateData d)) }
  if putResp.status ≠ 200 then
    { trace := [req], state := d, err := some (.httpErr putResp.status none) }
  else
    let r := resourceGns3TemplateRead config d readResp
    { trace := req :: r.trace, state := r.state, err := r.err }

/-- `resourceGns3TemplateDelete`: 404 clears the ID and succeeds; 204 clears
the ID and succeeds; any other status fails with status and body. -/
def resourceGns3TemplateDelete (config : ProviderConfig) (d : TemplateData)
    (resp : Response) : OpResult TemplateData :=
  let url := config.host ++ "/v2/projects/" ++ d.project_id ++ "/nodes/" ++ d.id
  let req : Request := { method := "DELETE", url := url, body := none }
  if resp.status = 404 then
    { trace := [req], state := { d with id := "" }, err := none }
  else if resp.status ≠ 204 then
    { trace := [req], state := d, err := some (.httpErr resp.status (some resp.body)) }
  else
    { trace := [req], state := { d with id := "" }, err := none }

/-- `resourceGns3TemplateImporter`: `strings.Contains(raw, "/")` guards the
split at the first `/`. -/
def resourceGns3TemplateImporter (raw : String) : ImportResult :=
  if goContainsChar raw '/' then
    match goSplitN2 raw '/' with
    | [projectID, nodeID] => .ok projectID nodeID
    | _ => .invalid raw
  else
    .invalid raw

/-! ## Docker container kind (`resource_gns3_docker`) -/

/-- The attributes of one Docker resource together with its terraform ID.
`environment` is the declared key/value map; `extra_volumes` the declared
list; `start_command` empty when unset. -/
structure DockerData where
  id : String
  project_id : String
  name : String
  compute_id : String
  image : String
  environment : List (String × String)
  x : Int
  y : Int
  extra_volumes : List String
  docker_id : String
  start_command : String
  start : Bool
deriving DecidableEq, Repr

/-- Per-field `d.HasChange` flags consulted by the Docker Update. -/
structure DockerChanges where
  environment : Bool
  start_command : Bool
deriving DecidableEq, Repr

/-- `DockerProperties` (`json` tags: `image`, `environment,omitempty` as a
nullable string, `console_type`, `extra_volumes,omitempty`,
`start_command,omitempty` as a nullable string). -/
structure DockerProperties where
  image : String
  environment : Option String
  consoleType : String
  extraVolumes : List String
  startCommand : Option String

/-- `json.Marshal` of `DockerProperties`: the nullable strings are omitted
exactly when the pointer is nil; the list is omitted when empty. -/
def DockerProperties.marshal (p : DockerProperties) : JVal :=
  .obj ([("image", .s p.image)] ++
    (match p.environment with
      | some e => [("environment", .s e)]
      | none => []) ++
    [("console_type", .s p.consoleType)] ++
    (if p.extraVolumes.isEmpty then [] else [("extra_volumes", .list (p.extraVolumes.map JVal.s))]) ++
    (match p.startCommand with
      | some c => [("start_command", .s c)]
      | none => []))

/-- `DockerNode` (`json` tags: `name`, `node_type`, `compute_id,omitempty`,
`properties`, `node_id,omitempty`, `x,omitempty`, `y,omitempty`). -/
structure DockerNode where
  name : String
  nodeType : String
  computeID : String
  properties : DockerProperties
  nodeID : String
  x : Int
  y : Int

/-- `json.Marshal` of a `DockerNode` value. -/
def DockerNode.marshal (n : DockerNode) : JVal :=
  .obj ([("name", .s n.name), ("node_type", .s n.nodeType)] ++
    (if n.computeID = "" then [] else [("compute_id", .s n.computeID)]) ++
    [("properties", n.properties.marshal)] ++
    (if n.nodeID = "" then [] else [("node_id", .s n.nodeID)]) ++
    (if n.x = 0 then [] else [("x", .i n.x)]) ++
    (if n.y = 0 then [] else [("y", .i n.y)]))

/-- The source's environment formatting: comma-joined `key=value` pairs. -/
def envJoin (env : List (String × String)) : String :=
  String.intercalate "," (env.map (fun kv => kv.1 ++ "=" ++ kv.2))

/-- `resourceGns3DockerCreate`: POST the marshalled `DockerNode`; non-201
fails surfacing the raw body; a missing `node_id` is a protocol error; the ID
and `docker_id` are then set, and when `start` is set a second POST starts
the container, failing on non-200 with the ID already assigned. -/
def resourceGns3DockerCreate (config : ProviderConfig) (d : DockerData)
    (createResp startResp : Response) : OpResult DockerData :=
  let envStr : Option String :=
    if d.environment.isEmpty then none else some (envJoin d.environment)
  let startCommand : Option String :=
    if d.start_command = "" then none else some d.start_command
  let dockerNode : DockerNode :=
    { name := d.name, nodeType := "docker", computeID := d.compute_id,
      nodeID := "", x := d.x, y := d.y,
      properties :=
        { image := d.image, environment := envStr, consoleType := "none",
          extraVolumes := d.extra_volumes, startCommand := startCommand } }
  let url := config.host ++ "/v2/projects/" ++ d.project_id ++ "/nodes"
  let req : Request := { method := "POST", url := url, body := some dockerNode.marshal }
  if createResp.status ≠ 201 then
    { trace := [req], state := d,
      err := some (.httpErr createResp.status (some createResp.body)) }
  else
    let nodeID := (createResp.body.getStr "node_id").getD ""
    if nodeID = "" then
      { trace := [req], state := d,
        err := some (.protocolErr "failed to retrieve node_id from GNS3 API response") }
    else
      let d1 := { d with id := nodeID, docker_id := nodeID }
      if d.start then
        let startURL := config.host ++ "/v2/projects/" ++ d.project_id ++ "/nodes/" ++ nodeID ++ "/start"
        let startReq : Request := { method := "POST", url := startURL, body := none }
        if startResp.status ≠ 200 then
          { trace := [req, startReq], state := d1,
            err := some (.httpErr startResp.status (some startResp.body)) }
        else
          { trace := [req, startReq], state := d1, err := none }
      else
        { trace := [req], state := d1, err := none }

/-- `resourceGns3DockerRead`: 404 clears the ID and succeeds; any other
non-200 fails with the status code only — the body is not read into the
error message; 200 succeeds without touching attributes. -/
def resourceGns3DockerRead (config : ProviderConfig) (d : DockerData)
    (resp : Response) : OpResult DockerData :=
  let url := config.host ++ "/v2/projects/" ++ d.project_id ++ "/nodes/" ++ d.id
  let req : Request := { method := "GET", url := url, body := none }
  if resp.status = 404 then
    { trace := [req], state := { d with id := "" }, err := none }
  else if resp.status ≠ 200 then
    { trace := [req], state := d, err := some (.httpErr resp.status none) }
  else
    { trace := [req], state := d, err := none }

/-- The `updateData` map assembled by `resourceGns3DockerUpdate` before the
request is sent: only a changed `environment` is staged (at the top level of
the body, not under `properties`). -/
def dockerUpdateData (d : DockerData) (ch : DockerChanges) : List (String × JVal) :=
  if ch.environment then [("environment", .s (envJoin d.environment))] else []

/-- `resourceGns3DockerUpdate`: the PUT is issued unconditionally (there is
no empty-delta short-circuit); non-200 fails surfacing the body; on success
the source stages a changed `start_command` into `updateData` only after the
request has already been sent — a dead store with no observable effect —
and re-reads the node. -/
def resourceGns3DockerUpdate (config : ProviderConfig) (d : DockerData)
    (ch : DockerChanges) (putResp readResp : Response) : OpResult DockerData :=
  let updateData := dockerUpdateData d ch
  let url := config.host ++ "/v2/projects/" ++ d.project_id ++ "/nodes/" ++ d.id
  let req : Request := { method := "PUT", url := url, body := some (.obj updateData) }
  if putResp.status ≠ 200 then
    { trace := [req], state := d,
      err := some (.httpErr putResp.status (some putResp.body)) }
  else
    let r := resourceGns3DockerRead config d readResp
    { trace := req :: r.trace, state := r.state, err := r.err }

/-- `resourceGns3DockerDelete`: the response status is never inspected — the
ID is cleared and nil returned for every status. -/
def resourceGns3DockerDelete (config : ProviderConfig) (d : DockerData)
    (_resp : Response) : OpResult DockerData :=
  let url := config.host ++ "/v2/projects/" ++ d.project_id ++ "/nodes/" ++ d.id
  let req : Request := { method := "DELETE", url := url, body := none }
  { trace := [req], state := { d with id := "" }, err := none }

/-- `resourceGns3DockerImporter`: accept exactly `<project_id>/<node_id>`. -/
def resourceGns3DockerImporter (raw : String) : ImportResult :=
  match goSplitN2 raw '/' with
  | [projectID, nodeID] => .ok projectID nodeID
  | _ => .invalid raw

/-! ## QEMU virtual-machine kind (`resource_gns3_qemu`) -/

/-- The attributes of one QEMU resource together with its terraform ID.
Optional string attributes (`cdrom_image`, `mac_address`, `options`,
`hda_disk_image`, `bios_image`) are empty when unset; `console` is zero when
unset. -/
structure QemuData where
  id : String
  project_id : String
  name : String
  adapter_type : String
  adapters : Int
  bios_image : String
  cdrom_image : String
  console : Int
  console_type : String
  cpus : Int
  ram : Int
  mac_address : String
  options : String
  start_vm : Bool
  platform : String
  hda_disk_image : String
  x : Int
  y : Int
  symbol : String
deriving DecidableEq, Repr

/-- Per-field `d.HasChange` flags consulted by the QEMU Update. -/
structure QemuChanges where
  name : Bool
  x : Bool
  y : Bool
  symbol : Bool
  adapter_type : Bool
  adapters : Bool
  bios_image : Bool
  cdrom_image : Bool
  cpus : Bool
  ram : Bool
  console_type : Bool
  platform : Bool
  hda_disk_image : Bool
  mac_address : Bool
  options : Bool
deriving DecidableEq, Repr

/-- The `properties` map built by `resourceGns3QemuCreate`.  The map is
seeded with the always-present keys (`cdrom_image` is first set to `""` and
then unconditionally overwritten with the attribute value, so it carries the
attribute value); the optional keys are inserted when `d.GetOk` reports a
non-zero value, with `hda_disk_image` also forcing `hda_disk_interface`. -/
def qemuCreateProperties (d : QemuData) : List (String × JVal) :=
  [("adapter_type", .s d.adapter_type), ("adapters", .i d.adapters),
   ("bios_image", .s d.bios_image), ("cdrom_image", .s d.cdrom_image),
   ("console_type", .s d.console_type), ("ram", .i d.ram), ("cpus", .i d.cpus),
   ("platform", .s d.platform)] ++
  (if d.console ≠ 0 then [("console", .i d.console)] else []) ++
  (if d.mac_address ≠ "" then [("mac_address", .s d.mac_address)] else []) ++
  (if d.options ≠ "" then [("options", .s d.options)] else []) ++
  (if d.hda_disk_image ≠ ""
    then [("hda_disk_image", .s d.hda_disk_image), ("hda_disk_interface", .s "virtio")]
    else [])

/-- The controller-level creation payload of `resourceGns3QemuCreate`. -/
def qemuCreatePayload (d : QemuData) : JVal :=
  .obj [("name", .s d.name), ("node_type", .s "qemu"), ("compute_id", .s "local"),
        ("x", .i d.x), ("y", .i d.y), ("symbol", .s d.symbol),
        ("properties", .obj (qemuCreateProperties d))]

/-- `resourceGns3QemuRead`: 404 clears the ID; other non-200 fails with
status and body; 200 projects `name`, `x`, `y` and several `properties`
fields back onto the state (guarded exactly as in the source: `adapter_type`
only when non-empty, `cpus` only when non-zero). -/
def resourceGns3QemuRead (config : ProviderConfig) (d : QemuData)
    (resp : Response) : OpResult QemuData :=
  let url := config.host ++ "/v2/projects/" ++ d.project_id ++ "/nodes/" ++ d.id
  let req : Request := { method := "GET", url := url, body := none }
  if resp.status = 404 then
    { trace := [req], state := { d with id := "" }, err := none }
  else if resp.status ≠ 200 then
    { trace := [req], state := d, err := some (.httpErr resp.status (some resp.body)) }
  else
    let node := resp.body
    let d1 := { d with name := (node.getStr "name").getD d.name }
    let d2 := match node.getInt "x" with
      | some v => { d1 with x := v }
      | none => d1
    let d3 := match node.getInt "y" with
      | some v => { d2 with y := v }
      | none => d2
    let props := (node.getObj "properties").getD []
    let d4 := match (JVal.obj props).getStr "adapter_type" with
      | some v => if v ≠ "" then { d3 with adapter_type := v } else d3
      | none => d3
    let d5 := match (JVal.obj props).getInt "adapters" with
      | some v => { d4 with adapters := v }
      | none => d4
    let d6 := match (JVal.obj props).getStr "bios_image" with
      | some v => { d5 with bios_image := v }
      | none => d5
    let d7 := match (JVal.obj props).getStr "cdrom_image" with
      | some v => { d6 with cdrom_image := v }
      | none => d6
    let d8 := match (JVal.obj props).getInt "cpus" with
      | some v => if v ≠ 0 then { d7 with cpus := v } else d7
      | none => d7
    { trace := [req], state := d8, err := none }

/-- `resourceGns3QemuCreate`: POST the controller payload; any status other
than 201 or 200 fails surfacing the body; a missing `node_id` is a protocol
error; the ID is then set; when `start_vm` is set a second POST starts the
node, failing on non-200 with the ID already assigned; finally the node is
re-read. -/
def resourceGns3QemuCreate (config : ProviderConfig) (d : QemuData)
    (createResp startResp readResp : Response) : OpResult QemuData :=
  let url := config.host ++ "/v2/projects/" ++ d.project_id ++ "/nodes"
  let req : Request := { method := "POST", url := url, body := some (qemuCreatePayload d) }
  if createResp.status ≠ 201 ∧ createResp.status ≠ 200 then
    { trace := [req], state := d,
      err := some (.httpErr createResp.status (some createResp.body)) }
  else
    let nodeID := (createResp.body.getStr "node_id").getD ""
    if nodeID = "" then
      { trace := [req], state := d, err := some (.protocolErr "node_id not returned by controller") }
    else
      let d1 := { d with id := nodeID }
      if d.start_vm then
        let startURL := config.host ++ "/v2/projects/" ++ d.project_id ++ "/nodes/" ++ nodeID ++ "/start"
        let startReq : Request := { method := "POST", url := startURL, body := none }
        if startResp.status ≠ 200 then
          { trace := [req, startReq], state := d1,
            err := some (.httpErr startResp.status (some startResp.body)) }
        else
          let r := resourceGns3QemuRead config d1 readResp
          { trace := req :: startReq :: r.trace, state := r.state, err := r.err }
      else
        let r := resourceGns3QemuRead config d1 readResp
        { trace := req :: r.trace, state := r.state, err := r.err }

/-- The top-level entries of the QEMU `updateData` map, in source order. -/
def qemuUpdateTop (d : QemuData) (ch : QemuChanges) : List (String × JVal) :=
  (if ch.name then [("name", .s d.name)] else []) ++
  (if ch.x then [("x", .i d.x)] else []) ++
  (if ch.y then [("y", .i d.y)] else []) ++
  (if ch.symbol then [("symbol", .s d.symbol)] else [])

/-- The nested `properties` entries of the QEMU `updateData` map, in source
order. -/
def qemuUpdateProperties (d : QemuData) (ch : QemuChanges) : List (String × JVal) :=
  (if ch.adapter_type then [("adapter_type", .s d.adapter_type)] else []) ++
  (if ch.adapters then [("adapters", .i d.adapters)] else []) ++
  (if ch.bios_image then [("bios_image", .s d.bios_image)] else []) ++
  (if ch.cdrom_image then [("cdrom_image", .s d.cdrom_image)] else []) ++
  (if ch.cpus then [("cpus", .i d.cpus)] else []) ++
  (if ch.ram then [("ram", .i d.ram)] else []) ++
  (if ch.console_type then [("console_type", .s d.console_type)] else []) ++
  (if ch.platform then [("platform", .s d.platform)] else []) ++
  (if ch.hda_disk_image then [("hda_disk_image", .s d.hda_disk_image)] else []) ++
  (if ch.mac_address then [("mac_address", .s d.mac_address)] else []) ++
  (if ch.options then [("options", .s d.options)] else [])

/-- The full QEMU `updateData` map: top-level entries, plus a `properties`
entry exactly when some nested field changed. -/
def qemuUpdateData (d : QemuData) (ch : QemuChanges) : List (String × JVal) :=
  qemuUpdateTop d ch ++
  (if (qemuUpdateProperties d ch).isEmpty then []
   else [("properties", .obj (qemuUpdateProperties d ch))])

/-- `resourceGns3QemuUpdate`: empty delta returns nil without a request;
otherwise PUT the delta in a single request, fail on non-200 surfacing the
body, and on success re-read the node. -/
def resourceGns3QemuUpdate (config : ProviderConfig) (d : QemuData)
    (ch : QemuChanges) (putResp readResp : Response) : OpResult QemuData :=
  let updateData := qemuUpdateData d ch
  if updateData.isEmpty then
    { trace := [], state := d, err := none }
  else
    let url := config.host ++ "/v2/projects/" ++ d.project_id ++ "/nodes/" ++ d.id
    let req : Request := { method := "PUT", url := url, body := some (.obj updateData) }
    if putResp.status ≠ 200 then
      { trace := [req], state := d,
        err := some (.httpErr putResp.status (some putResp.body)) }
    else
      let r := resourceGns3QemuRead config d readResp
      { trace := req :: r.trace, state := r.state, err := r.err }

/-- `resourceGns3QemuDelete`: 204 and 200 both succeed and clear the ID; any
other status (404 included) fails surfacing status and body. -/
def resourceGns3QemuDelete (config : ProviderConfig) (d : QemuData)
    (resp : Response) : OpResult QemuData :=
  let url := config.host ++ "/v2/projects/" ++ d.project_id ++ "/nodes/" ++ d.id
  let req : Request := { method := "DELETE", url := url, body := none }
  if resp.status ≠ 204 ∧ resp.status ≠ 200 then
    { trace := [req], state := d, err := some (.httpErr resp.status (some resp.body)) }
  else
    { trace := [req], state := { d with id := "" }, err := none }

/-- `resourceQemuImporter`: a raw key containing a comma is split there
first, with operands reversed (`<node_id>,<project_id>`); otherwise a key
containing a slash is split as `<project_id>/<node_id>`; otherwise the key
is rejected. -/
def resourceQemuImporter (raw : String) : ImportResult :=
  if goContainsChar raw ',' then
    match goSplitN2 raw ',' with
    | [nodeID, projectID] => .ok projectID nodeID
    | _ => .invalid raw
  else if goContainsChar raw '/' then
    match goSplitN2 raw '/' with
    | [projectID, nodeID] => .ok projectID nodeID
    | _ => .invalid raw
  else
    .invalid raw

/-! ## Concrete fixtures used by witnesses and counterexamples -/

/-- A provider configuration with a fixed host. -/
def cfg₀ : ProviderConfig := { host := "http://h" }

/-- A cloud instance that already has an identity. -/
def cloudD₀ : CloudData :=
  { id := "n1", project_id := "p1", name := "c", compute_id := "local",
    x := 0, y := 0, symbol := "sym", cloud_id := "n1" }

/-- A switch instance that already has an identity. -/
def switchD₀ : SwitchData :=
  { id := "n1", project_id := "p1", name := "sw", compute_id := "local",
    x := 0, y := 0, symbol := "sym", switch_id := "n1" }

/-- A template instance that already has an identity. -/
def tmplD₀ : TemplateData :=
  { id := "n1", project_id := "p1", template_id := "t1", name := "t",
    compute_id := "local", start := false, x := 0, y := 0 }

/-- A Docker instance that already has an identity, with one environment
entry and a start command. -/
def dockerD₀ : DockerData :=
  { id := "n1", project_id := "p1", name := "d", compute_id := "local",
    image := "img", environment := [("A", "1")], x := 0, y := 0,
    extra_volumes := [], docker_id := "n1", start_command := "run",
    start := false }

/-- A QEMU instance that already has an identity. -/
def qemuD₀ : QemuData :=
  { id := "n1", project_id := "p1", name := "q", adapter_type := "e1000",
    adapters := 1, bios_image := "", cdrom_image := "", console := 0,
    console_type := "telnet", cpus := 1, ram := 256, mac_address := "",
    options := "", start_vm := false, platform := "", hda_disk_image := "",
    x := 0, y := 0, symbol := "sym" }

/-- A 200 response with an empty object body. -/
def r200 : Response := { status := 200, body := .obj [] }

/-- A 404 response with an empty object body. -/
def r404 : Response := { status := 404, body := .obj [] }

/-- A 500 response with a diagnostic body. -/
def r500 : Response := { status := 500, body := .s "boom" }

/-! ## C8: accepted import key formats -/

/-- C8: every resource kind's Import parses `"proj1/node1"` into
owning project `"proj1"` and identity `"node1"`; the QEMU kind alone also
accepts the reversed comma form `"node1,proj1"` with the identical result,
and every other kind rejects the comma form. -/
theorem import_key_formats :
    resourceGns3CloudImporter "proj1/node1" = ImportResult.ok "proj1" "node1" ∧
    resourceGns3SwitchImporter "proj1/node1" = ImportResult.ok "proj1" "node1" ∧
    resourceGns3TemplateImporter "proj1/node1" = ImportResult.ok "proj1" "node1" ∧
    resourceGns3DockerImporter "proj1/node1" = ImportResult.ok "proj1" "node1" ∧
    resourceQemuImporter "proj1/node1" = ImportResult.ok "proj1" "node1" ∧
    resourceQemuImporter "node1,proj1" = ImportResult.ok "proj1" "node1" ∧
    resourceGns3CloudImporter "node1,proj1" = ImportResult.invalid "node1,proj1" ∧
    resourceGns3SwitchImporter "node1,proj1" = ImportResult.invalid "node1,proj1" ∧
    resourceGns3TemplateImporter "node1,proj1" = ImportResult.invalid "node1,proj1" ∧
    resourceGns3DockerImporter "node1,proj1" = ImportResult.invalid "node1,proj1" := by
  decide

/-! ## C10: unvalidated split at the first slash -/

/-- C10 counterexample: for the QEMU kind the claimed split at the first `/`
does not hold on every key containing a `/`: the key `"p1/n1,x"` contains a
`/`, but the comma branch takes precedence and yields owning project `"x"`
and identity `"p1/n1"` instead of the claimed `"p1"` and `"n1,x"`. -/
theorem qemu_import_comma_overrides_slash :
    resourceQemuImporter "p1/n1,x" = ImportResult.ok "x" "p1/n1" ∧
    resourceQemuImporter "p1/n1,x" ≠ ImportResult.ok "p1" "n1,x" := by
  decide

/-- C10 amended: for the cloud, switch, template and Docker kinds, Import
accepts any raw key containing at least one `/`, taking the owning project
from before the first `/` and the identity from everything after it with no
further validation; the QEMU kind behaves the same only for keys containing
no comma, since its comma branch is tried first. -/
theorem import_splits_at_first_slash (raw : String) (pre post : List Char)
    (h : splitFirstChar '/' raw.toList = some (pre, post)) :
    resourceGns3CloudImporter raw = ImportResult.ok (String.mk pre) (String.mk post) ∧
    resourceGns3SwitchImporter raw = ImportResult.ok (String.mk pre) (String.mk post) ∧
    resourceGns3TemplateImporter raw = ImportResult.ok (String.mk pre) (String.mk post) ∧
    resourceGns3DockerImporter raw = ImportResult.ok (String.mk pre) (String.mk post) ∧
    (splitFirstChar ',' raw.toList = none →
      resourceQemuImporter raw = ImportResult.ok (String.mk pre) (String.mk post)) := by
  have h' : splitFirstChar '/' raw.data = some (pre, post) := h
  refine ⟨?_, ?_, ?_, ?_, fun hc => ?_⟩
  · simp [resourceGns3CloudImporter, goSplitN2, h']
  · simp [resourceGns3SwitchImporter, goSplitN2, h']
  · simp [resourceGns3TemplateImporter, goSplitN2, goContainsChar, h']
  · simp [resourceGns3DockerImporter, goSplitN2, h']
  · have hc' : splitFirstChar ',' raw.data = none := hc
    simp [resourceQemuImporter, goSplitN2, goContainsChar, h', hc']

/-- C10 amended, witnessed at the claim's own example keys: `"/n1"` yields an
empty owning project, and `"p1/a/b"` yields identity `"a/b"`. -/
theorem import_splits_at_first_slash_witness :
    resourceGns3CloudImporter "/n1" = ImportResult.ok "" "n1" ∧
    resourceGns3TemplateImporter "p1/a/b" = ImportResult.ok "p1" "a/b" ∧
    resourceQemuImporter "p1/a/b" = ImportResult.ok "p1" "a/b" := by
  refine ⟨?_, ?_, ?_⟩
  · exact (import_splits_at_first_slash "/n1" [] ['n', '1'] (by decide)).1
  · exact (import_splits_at_first_slash "p1/a/b" ['p', '1'] ['a', '/', 'b'] (by decide)).2.2.1
  · exact (import_splits_at_first_slash "p1/a/b" ['p', '1'] ['a', '/', 'b'] (by decide)).2.2.2.2 (by decide)

/-! ## C7: the Docker Update drops a changed `start_command` -/

/-- The Docker Read issues exactly one GET request with no body, on every
path. -/
theorem dockerRead_trace (config : ProviderConfig) (d : DockerData) (resp : Response) :
    (resourceGns3DockerRead config d resp).trace =
      [{ method := "GET",
         url := config.host ++ "/v2/projects/" ++ d.project_id ++ "/nodes/" ++ d.id,
         body := none }] := by
  unfold resourceGns3DockerRead
  split <;> [rfl; (split <;> rfl)]

/-- The Docker Update issues the PUT unconditionally, followed by the GET of
the re-read exactly when the PUT got a 200. -/
theorem dockerUpdate_trace (config : ProviderConfig) (d : DockerData)
    (ch : DockerChanges) (putResp readResp : Response) :
    (resourceGns3DockerUpdate config d ch putResp readResp).trace =
      { method := "PUT",
        url := config.host ++ "/v2/projects/" ++ d.project_id ++ "/nodes/" ++ d.id,
        body := some (.obj (dockerUpdateData d ch)) } ::
      (if putResp.status ≠ 200 then []
       else [{ method := "GET",
               url := config.host ++ "/v2/projects/" ++ d.project_id ++ "/nodes/" ++ d.id,
               body := none }]) := by
  unfold resourceGns3DockerUpdate
  split <;> simp_all [dockerRead_trace]

/-- C7: when `start_command` is among the changed fields, the Docker Update
never transmits it — no request issued by the call carries a
`start_command` key in its JSON body, because the change is staged into the
delta map only after the PUT has been sent. -/
theorem docker_update_drops_start_command (config : ProviderConfig)
    (d : DockerData) (ch : DockerChanges) (putResp readResp : Response)
    (_h : ch.start_command = true) :
    ∀ req ∈ (resourceGns3DockerUpdate config d ch putResp readResp).trace,
      ∀ b, req.body = some b → "start_command" ∉ b.objKeys := by
  intro req hreq b hb
  have hput : "start_command" ∉ (JVal.obj (dockerUpdateData d ch)).objKeys := by
    cases he : ch.environment <;> simp [dockerUpdateData, he, JVal.objKeys]
  rw [dockerUpdate_trace] at hreq
  rcases List.mem_cons.mp hreq with hreq | hreq
  · subst hreq
    cases hb
    exact hput
  · split at hreq
    · cases hreq
    · rcases List.mem_singleton.mp hreq with rfl
      cases hb

/-- The PUT request issued by the concrete Docker Update of the C7 witness. -/
def putReq₀ : Request :=
  { method := "PUT", url := "http://h/v2/projects/p1/nodes/n1",
    body := some (JVal.obj [("environment", JVal.s "A=1")]) }

/-- C7 witness: a concrete Docker Update with both `environment` and
`start_command` changed; the PUT request is the first one issued, and its
body has no `start_command` key. -/
theorem docker_update_drops_start_command_witness :
    putReq₀ ∈ (resourceGns3DockerUpdate cfg₀ dockerD₀
        { environment := true, start_command := true } r200 r404).trace ∧
    "start_command" ∉ (JVal.obj [("environment", JVal.s "A=1")]).objKeys := by
  have hmem : putReq₀ ∈ (resourceGns3DockerUpdate cfg₀ dockerD₀
      { environment := true, start_command := true } r200 r404).trace := by
    rw [dockerUpdate_trace]
    left
  refine ⟨hmem, ?_⟩
  exact docker_update_drops_start_command cfg₀ dockerD₀
    { environment := true, start_command := true } r200 r404 rfl
    _ hmem (JVal.obj [("environment", JVal.s "A=1")]) rfl

/-! ## C1: delete status handling -/

/-- C1 counterexample: the cloud Delete treats 404 as an error, not as
success — the claim's "not found is success identical to no content" fails
at the cloud kind, and the identity is left in place. -/
theorem cloud_delete_404_is_error :
    (resourceGns3CloudDelete cfg₀ cloudD₀ r404).err = some (OpError.httpErr 404 none) ∧
    (resourceGns3CloudDelete cfg₀ cloudD₀ r404).state.id = "n1" := by
  constructor <;> rfl

/-- C1 amended: Delete status handling differs per kind.  Only the template
Delete succeeds exactly on 204 or 404; the cloud and switch Deletes succeed
only on 204 (404 is an error that leaves the identity intact); the QEMU
Delete succeeds exactly on 204 or 200; the Docker Delete never inspects the
status and succeeds, clearing the identity, on every response.  In each case
the identity is cleared exactly on success. -/
theorem delete_status_semantics (config : ProviderConfig) (resp : Response) :
    (∀ d : CloudData,
      ((resourceGns3CloudDelete config d resp).err = none ↔ resp.status = 204) ∧
      (resourceGns3CloudDelete config d resp).state.id =
        (if resp.status = 204 then "" else d.id)) ∧
    (∀ d : SwitchData,
      ((resourceGns3SwitchDelete config d resp).err = none ↔ resp.status = 204) ∧
      (resourceGns3SwitchDelete config d resp).state.id =
        (if resp.status = 204 then "" else d.id)) ∧
    (∀ d : TemplateData,
      ((resourceGns3TemplateDelete config d resp).err = none ↔
        (resp.status = 404 ∨ resp.status = 204)) ∧
      (resourceGns3TemplateDelete config d resp).state.id =
        (if resp.status = 404 ∨ resp.status = 204 then "" else d.id)) ∧
    (∀ d : DockerData,
      (resourceGns3DockerDelete config d resp).err = none ∧
      (resourceGns3DockerDelete config d resp).state.id = "") ∧
    (∀ d : QemuData,
      ((resourceGns3QemuDelete config d resp).err = none ↔
        (resp.status = 204 ∨ resp.status = 200)) ∧
      (resourceGns3QemuDelete config d resp).state.id =
        (if resp.status = 204 ∨ resp.status = 200 then "" else d.id)) := by
  refine ⟨fun d => ?_, fun d => ?_, fun d => ?_, fun d => ?_, fun d => ?_⟩
  · unfold resourceGns3CloudDelete
    by_cases h : resp.status = 204 <;> simp [h]
  · unfold resourceGns3SwitchDelete
    by_cases h : resp.status = 204 <;> simp [h]
  · unfold resourceGns3TemplateDelete
    by_cases h4 : resp.status = 404 <;> by_cases h2 : resp.status = 204 <;>
      simp [h4, h2]
  · unfold resourceGns3DockerDelete
    simp
  · unfold resourceGns3QemuDelete
    by_cases h4 : resp.status = 204 <;> by_cases h2 : resp.status = 200 <;>
      simp [h4, h2]

/-! ## Read characterization lemmas (shared) -/

/-- Cloud Read: the identity is cleared exactly on 404. -/
theorem cloudRead_id (config : ProviderConfig) (d : CloudData) (resp : Response) :
    (resourceGns3CloudRead config d resp).state.id =
      (if resp.status = 404 then "" else d.id) := by
  unfold resourceGns3CloudRead
  by_cases h4 : resp.status = 404 <;> by_cases h2 : resp.status = 200 <;> simp [h4, h2]

/-- Cloud Read: error exactly on a status that is neither 404 nor 200, and
the error carries status and body. -/
theorem cloudRead_err (config : ProviderConfig) (d : CloudData) (resp : Response) :
    (resourceGns3CloudRead config d resp).err =
      (if resp.status = 404 ∨ resp.status = 200 then none
       else some (.httpErr resp.status (some resp.body))) := by
  unfold resourceGns3CloudRead
  by_cases h4 : resp.status = 404 <;> by_cases h2 : resp.status = 200 <;> simp [h4, h2]

/-- Switch Read: the identity is cleared exactly on 404. -/
theorem switchRead_id (config : ProviderConfig) (d : SwitchData) (resp : Response) :
    (resourceGns3SwitchRead config d resp).state.id =
      (if resp.status = 404 then "" else d.id) := by
  unfold resourceGns3SwitchRead
  by_cases h4 : resp.status = 404 <;> by_cases h2 : resp.status = 200 <;> simp [h4, h2]

/-- Switch Read: error exactly on a status that is neither 404 nor 200. -/
theorem switchRead_err (config : ProviderConfig) (d : SwitchData) (resp : Response) :
    (resourceGns3SwitchRead config d resp).err =
      (if resp.status = 404 ∨ resp.status = 200 then none
       else some (.httpErr resp.status (some resp.body))) := by
  unfold resourceGns3SwitchRead
  by_cases h4 : resp.status = 404 <;> by_cases h2 : resp.status = 200 <;> simp [h4, h2]

/-- Template Read: the identity is cleared exactly on 404; the 200-path
attribute projection never touches it. -/
theorem templateRead_id (config : ProviderConfig) (d : TemplateData) (resp : Response) :
    (resourceGns3TemplateRead config d resp).state.id =
      (if resp.status = 404 then "" else d.id) := by
  unfold resourceGns3TemplateRead
  by_cases h4 : resp.status = 404 <;> by_cases h2 : resp.status = 200 <;>
    simp [h4, h2] <;> (repeat' split) <;> rfl

/-- Template Read: error exactly on a status that is neither 404 nor 200. -/
theorem templateRead_err (config : ProviderConfig) (d : TemplateData) (resp : Response) :
    (resourceGns3TemplateRead config d resp).err =
      (if resp.status = 404 ∨ resp.status = 200 then none
       else some (.httpErr resp.status (some resp.body))) := by
  unfold resourceGns3TemplateRead
  by_cases h4 : resp.status = 404 <;> by_cases h2 : resp.status = 200 <;> simp [h4, h2]

/-- Docker Read: the identity is cleared exactly on 404. -/
theorem dockerRead_id (config : ProviderConfig) (d : DockerData) (resp : Response) :
    (resourceGns3DockerRead config d resp).state.id =
      (if resp.status = 404 then "" else d.id) := by
  unfold resourceGns3DockerRead
  by_cases h4 : resp.status = 404 <;> by_cases h2 : resp.status = 200 <;> simp [h4, h2]

/-- Docker Read: error exactly on a status that is neither 404 nor 200, and
the error carries the status code only — no body. -/
theorem dockerRead_err (config : ProviderConfig) (d : DockerData) (resp : Response) :
    (resourceGns3DockerRead config d resp).err =
      (if resp.status = 404 ∨ resp.status = 200 then none
       else some (.httpErr resp.status none)) := by
  unfold resourceGns3DockerRead
  by_cases h4 : resp.status = 404 <;> by_cases h2 : resp.status = 200 <;> simp [h4, h2]

/-- QEMU Read: the identity is cleared exactly on 404; the 200-path
attribute projection never touches it. -/
theorem qemuRead_id (config : ProviderConfig) (d : QemuData) (resp : Response) :
    (resourceGns3QemuRead config d resp).state.id =
      (if resp.status = 404 then "" else d.id) := by
  unfold resourceGns3QemuRead
  by_cases h4 : resp.status = 404 <;> by_cases h2 : resp.status = 200 <;>
    simp [h4, h2] <;> (repeat' split) <;> rfl

/-- QEMU Read: error exactly on a status that is neither 404 nor 200. -/
theorem qemuRead_err (config : ProviderConfig) (d : QemuData) (resp : Response) :
    (resourceGns3QemuRead config d resp).err =
      (if resp.status = 404 ∨ resp.status = 200 then none
       else some (.httpErr resp.status (some resp.body))) := by
  unfold resourceGns3QemuRead
  by_cases h4 : resp.status = 404 <;> by_cases h2 : resp.status = 200 <;> simp [h4, h2]

/-! ## C6: read status handling -/

/-- C6 counterexample: the Docker Read's error for a non-404 non-200 status
carries only the status code — the response body is not surfaced, contrary
to the claim that every such error carries status code and body. -/
theorem docker_read_error_lacks_body :
    (resourceGns3DockerRead cfg₀ dockerD₀ r500).err = some (OpError.httpErr 500 none) ∧
    errSurfacesBody (resourceGns3DockerRead cfg₀ dockerD₀ r500).err = false := by
  constructor <;> rfl

/-- C6 amended: for every kind, Read on 404 clears the identity and
succeeds, 200 succeeds leaving the identity intact, and any other status is
an error carrying the status code; the cloud, switch, template and QEMU
errors also carry the response body, while the Docker read error carries the
status code alone. -/
theorem read_status_semantics (config : ProviderConfig) (resp : Response) :
    (∀ d : CloudData,
      (resourceGns3CloudRead config d resp).err =
        (if resp.status = 404 ∨ resp.status = 200 then none
         else some (.httpErr resp.status (some resp.body))) ∧
      (resourceGns3CloudRead config d resp).state.id =
        (if resp.status = 404 then "" else d.id)) ∧
    (∀ d : SwitchData,
      (resourceGns3SwitchRead config d resp).err =
        (if resp.status = 404 ∨ resp.status = 200 then none
         else some (.httpErr resp.status (some resp.body))) ∧
      (resourceGns3SwitchRead config d resp).state.id =
        (if resp.status = 404 then "" else d.id)) ∧
    (∀ d : TemplateData,
      (resourceGns3TemplateRead config d resp).err =
        (if resp.status = 404 ∨ resp.status = 200 then none
         else some (.httpErr resp.status (some resp.body))) ∧
      (resourceGns3TemplateRead config d resp).state.id =
        (if resp.status = 404 then "" else d.id)) ∧
    (∀ d : DockerData,
      (resourceGns3DockerRead config d resp).err =
        (if resp.status = 404 ∨ resp.status = 200 then none
         else some (.httpErr resp.status none)) ∧
      (resourceGns3DockerRead config d resp).state.id =
        (if resp.status = 404 then "" else d.id)) ∧
    (∀ d : QemuData,
      (resourceGns3QemuRead config d resp).err =
        (if resp.status = 404 ∨ resp.status = 200 then none
         else some (.httpErr resp.status (some resp.body))) ∧
      (resourceGns3QemuRead config d resp).state.id =
        (if resp.status = 404 then "" else d.id)) := by
  exact ⟨fun d => ⟨cloudRead_err config d resp, cloudRead_id config d resp⟩,
    fun d => ⟨switchRead_err config d resp, switchRead_id config d resp⟩,
    fun d => ⟨templateRead_err config d resp, templateRead_id config d resp⟩,
    fun d => ⟨dockerRead_err config d resp, dockerRead_id config d resp⟩,
    fun d => ⟨qemuRead_err config d resp, qemuRead_id config d resp⟩⟩

/-! ## Update identity-frame lemmas (shared) -/

/-- Cloud Update and identity: failure leaves the identity exactly as it
was; success leaves it as it was or clears it (via the embedded re-read). -/
theorem cloudUpdate_id_frame (config : ProviderConfig) (d : CloudData)
    (ch : CloudChanges) (r1 r2 : Response) :
    ((resourceGns3CloudUpdate config d ch r1 r2).err ≠ none →
      (resourceGns3CloudUpdate config d ch r1 r2).state.id = d.id) ∧
    ((resourceGns3CloudUpdate config d ch r1 r2).err = none →
      (resourceGns3CloudUpdate config d ch r1 r2).state.id = d.id ∨
      (resourceGns3CloudUpdate config d ch r1 r2).state.id = "") := by
  by_cases he : (cloudUpdateData d ch).isEmpty = true
  · simp [resourceGns3CloudUpdate, he]
  · by_cases hs : r1.status = 200
    · by_cases h4 : r2.status = 404 <;> by_cases h2 : r2.status = 200 <;>
        simp [resourceGns3CloudUpdate, he, hs, cloudRead_id, cloudRead_err, h4, h2]
    · simp [resourceGns3CloudUpdate, he, hs]

/-- Switch Update and identity: same framing as the cloud Update. -/
theorem switchUpdate_id_frame (config : ProviderConfig) (d : SwitchData)
    (ch : SwitchChanges) (r1 r2 : Response) :
    ((resourceGns3SwitchUpdate config d ch r1 r2).err ≠ none →
      (resourceGns3SwitchUpdate config d ch r1 r2).state.id = d.id) ∧
    ((resourceGns3SwitchUpdate config d ch r1 r2).err = none →
      (resourceGns3SwitchUpdate config d ch r1 r2).state.id = d.id ∨
      (resourceGns3SwitchUpdate config d ch r1 r2).state.id = "") := by
  by_cases he : (switchUpdateData d ch).isEmpty = true
  · simp [resourceGns3SwitchUpdate, he]
  · by_cases hs : r1.status = 200
    · by_cases h4 : r2.status = 404 <;> by_cases h2 : r2.status = 200 <;>
        simp [resourceGns3SwitchUpdate, he, hs, switchRead_id, switchRead_err, h4, h2]
    · simp [resourceGns3SwitchUpdate, he, hs]

/-- Template Update and identity: same framing (the template Update has no
empty-delta path). -/
theorem templateUpdate_id_frame (config : ProviderConfig) (d : TemplateData)
    (ch : TemplateChanges) (r1 r2 : Response) :
    ((resourceGns3TemplateUpdate config d ch r1 r2).err ≠ none →
      (resourceGns3TemplateUpdate config d ch r1 r2).state.id = d.id) ∧
    ((resourceGns3TemplateUpdate config d ch r1 r2).err = none →
      (resourceGns3TemplateUpdate config d ch r1 r2).state.id = d.id ∨
      (resourceGns3TemplateUpdate config d ch r1 r2).state.id = "") := by
  by_cases hs : r1.status = 200
  · by_cases h4 : r2.status = 404 <;> by_cases h2 : r2.status = 200 <;>
      simp [resourceGns3TemplateUpdate, hs, templateRead_id, templateRead_err, h4, h2]
  · simp [resourceGns3TemplateUpdate, hs]

/-- Docker Update and identity: same framing (the Docker Update has no
empty-delta path either). -/
theorem dockerUpdate_id_frame (config : ProviderConfig) (d : DockerData)
    (ch : DockerChanges) (r1 r2 : Response) :
    ((resourceGns3DockerUpdate config d ch r1 r2).err ≠ none →
      (resourceGns3DockerUpdate config d ch r1 r2).state.id = d.id) ∧
    ((resourceGns3DockerUpdate config d ch r1 r2).err = none →
      (resourceGns3DockerUpdate config d ch r1 r2).state.id = d.id ∨
      (resourceGns3DockerUpdate config d ch r1 r2).state.id = "") := by
  by_cases hs : r1.status = 200
  · by_cases h4 : r2.status = 404 <;> by_cases h2 : r2.status = 200 <;>
      simp [resourceGns3DockerUpdate, hs, dockerRead_id, dockerRead_err, h4, h2]
  · simp [resourceGns3DockerUpdate, hs]

/-- QEMU Update and identity: same framing. -/
theorem qemuUpdate_id_frame (config : ProviderConfig) (d : QemuData)
    (ch : QemuChanges) (r1 r2 : Response) :
    ((resourceGns3QemuUpdate config d ch r1 r2).err ≠ none →
      (resourceGns3QemuUpdate config d ch r1 r2).state.id = d.id) ∧
    ((resourceGns3QemuUpdate config d ch r1 r2).err = none →
      (resourceGns3QemuUpdate config d ch r1 r2).state.id = d.id ∨
      (resourceGns3QemuUpdate config d ch r1 r2).state.id = "") := by
  by_cases he : (qemuUpdateData d ch).isEmpty = true
  · simp [resourceGns3QemuUpdate, he]
  · by_cases hs : r1.status = 200
    · by_cases h4 : r2.status = 404 <;> by_cases h2 : r2.status = 200 <;>
        simp [resourceGns3QemuUpdate, he, hs, qemuRead_id, qemuRead_err, h4, h2]
    · simp [resourceGns3QemuUpdate, he, hs]

/-! ## C9: Update and identity -/

/-- A cloud change set with only `name` changed. -/
def chName₀ : CloudChanges :=
  { name := true, compute_id := false, x := false, y := false, symbol := false }

/-- A cloud change set with nothing changed. -/
def chNone₀ : CloudChanges :=
  { name := false, compute_id := false, x := false, y := false, symbol := false }

/-- C9 counterexample: a cloud Update whose PUT gets a 200 but whose
follow-up re-read gets a 404 returns success with the identity cleared —
the identity after Update is not the identity before the call. -/
theorem cloud_update_clears_vanished_id :
    (resourceGns3CloudUpdate cfg₀ cloudD₀ chName₀ r200 r404).err = none ∧
    (resourceGns3CloudUpdate cfg₀ cloudD₀ chName₀ r200 r404).state.id = "" ∧
    cloudD₀.id = "n1" := by
  refine ⟨rfl, rfl, rfl⟩

/-- C9 amended: for every kind, Update never assigns a new identity — on
failure the identity is exactly its prior value, and on success it is
either the prior value or empty, the latter exactly when the embedded
post-update Read observed a 404. -/
theorem update_identity_frame (config : ProviderConfig) :
    (∀ (d : CloudData) (ch : CloudChanges) (r1 r2 : Response),
      ((resourceGns3CloudUpdate config d ch r1 r2).err ≠ none →
        (resourceGns3CloudUpdate config d ch r1 r2).state.id = d.id) ∧
      ((resourceGns3CloudUpdate config d ch r1 r2).err = none →
        (resourceGns3CloudUpdate config d ch r1 r2).state.id = d.id ∨
        (resourceGns3CloudUpdate config d ch r1 r2).state.id = "")) ∧
    (∀ (d : SwitchData) (ch : SwitchChanges) (r1 r2 : Response),
      ((resourceGns3SwitchUpdate config d ch r1 r2).err ≠ none →
        (resourceGns3SwitchUpdate config d ch r1 r2).state.id = d.id) ∧
      ((resourceGns3SwitchUpdate config d ch r1 r2).err = none →
        (resourceGns3SwitchUpdate config d ch r1 r2).state.id = d.id ∨
        (resourceGns3SwitchUpdate config d ch r1 r2).state.id = "")) ∧
    (∀ (d : TemplateData) (ch : TemplateChanges) (r1 r2 : Response),
      ((resourceGns3TemplateUpdate config d ch r1 r2).err ≠ none →
        (resourceGns3TemplateUpdate config d ch r1 r2).state.id = d.id) ∧
      ((resourceGns3TemplateUpdate config d ch r1 r2).err = none →
        (resourceGns3TemplateUpdate config d ch r1 r2).state.id = d.id ∨
        (resourceGns3TemplateUpdate config d ch r1 r2).state.id = "")) ∧
    (∀ (d : DockerData) (ch : DockerChanges) (r1 r2 : Response),
      ((resourceGns3DockerUpdate config d ch r1 r2).err ≠ none →
        (resourceGns3DockerUpdate config d ch r1 r2).state.id = d.id) ∧
      ((resourceGns3DockerUpdate config d ch r1 r2).err = none →
        (resourceGns3DockerUpdate config d ch r1 r2).state.id = d.id ∨
        (resourceGns3DockerUpdate config d ch r1 r2).state.id = "")) ∧
    (∀ (d : QemuData) (ch : QemuChanges) (r1 r2 : Response),
      ((resourceGns3QemuUpdate config d ch r1 r2).err ≠ none →
        (resourceGns3QemuUpdate config d ch r1 r2).state.id = d.id) ∧
      ((resourceGns3QemuUpdate config d ch r1 r2).err = none →
        (resourceGns3QemuUpdate config d ch r1 r2).state.id = d.id ∨
        (resourceGns3QemuUpdate config d ch r1 r2).state.id = "")) := by
  exact ⟨fun d ch r1 r2 => cloudUpdate_id_frame config d ch r1 r2,
    fun d ch r1 r2 => switchUpdate_id_frame config d ch r1 r2,
    fun d ch r1 r2 => templateUpdate_id_frame config d ch r1 r2,
    fun d ch r1 r2 => dockerUpdate_id_frame config d ch r1 r2,
    fun d ch r1 r2 => qemuUpdate_id_frame config d ch r1 r2⟩

/-- C9 amended, witnessed at concrete inputs: a failing cloud Update (PUT
answered 500) keeps the identity, and a successful one ends with the prior
identity or an empty one. -/
theorem update_identity_frame_witness :
    (resourceGns3CloudUpdate cfg₀ cloudD₀ chName₀ r500 r200).state.id = cloudD₀.id ∧
    ((resourceGns3CloudUpdate cfg₀ cloudD₀ chName₀ r200 r200).state.id = cloudD₀.id ∨
      (resourceGns3CloudUpdate cfg₀ cloudD₀ chName₀ r200 r200).state.id = "") := by
  constructor
  · exact ((update_identity_frame cfg₀).1 cloudD₀ chName₀ r500 r200).1 (by simp
      [resourceGns3CloudUpdate, cloudUpdateData, chName₀, r500])
  · exact ((update_identity_frame cfg₀).1 cloudD₀ chName₀ r200 r200).2 rfl

/-! ## C2: update deltas and the no-op path -/

/-- C2 counterexample: the template Update issues a network call even when
no declared attribute has changed — the PUT is sent unconditionally, and
its payload carries `name` although `name` was not marked changed. -/
theorem template_update_always_calls :
    (resourceGns3TemplateUpdate cfg₀ tmplD₀
      { name := false, compute_id := false, x := false, y := false }
      r500 r200).trace.length = 1 ∧
    "name" ∈ (templateUpdateData tmplD₀).map Prod.fst := by
  exact ⟨rfl, by decide⟩

/-- C2 amended: the cloud, switch and QEMU Updates include exactly the
changed fields among the fields each handles and return success without any
request when that delta is empty; the template Update always sends
`name`, `compute_id`, `x` and `y` and always issues the PUT; the Docker
Update stages only a changed `environment` and issues the PUT even when the
delta is empty. -/
theorem update_minimal_delta (config : ProviderConfig) :
    (∀ (d : CloudData) (ch : CloudChanges) (r1 r2 : Response),
      (cloudUpdateData d ch).map Prod.fst =
        (if ch.name then ["name"] else []) ++
        (if ch.compute_id then ["compute_id"] else []) ++
        (if ch.x then ["x"] else []) ++
        (if ch.y then ["y"] else []) ++
        (if ch.symbol then ["symbol"] else []) ∧
      ((cloudUpdateData d ch).isEmpty = true →
        resourceGns3CloudUpdate config d ch r1 r2 = ⟨[], d, none⟩)) ∧
    (∀ (d : SwitchData) (ch : SwitchChanges) (r1 r2 : Response),
      (switchUpdateData d ch).map Prod.fst =
        (if ch.name then ["name"] else []) ++
        (if ch.compute_id then ["compute_id"] else []) ++
        (if ch.x then ["x"] else []) ++
        (if ch.y then ["y"] else []) ∧
      ((switchUpdateData d ch).isEmpty = true →
        resourceGns3SwitchUpdate config d ch r1 r2 = ⟨[], d, none⟩)) ∧
    (∀ (d : QemuData) (ch : QemuChanges) (r1 r2 : Response),
      (qemuUpdateTop d ch).map Prod.fst =
        (if ch.name then ["name"] else []) ++
        (if ch.x then ["x"] else []) ++
        (if ch.y then ["y"] else []) ++
        (if ch.symbol then ["symbol"] else []) ∧
      (qemuUpdateProperties d ch).map Prod.fst =
        (if ch.adapter_type then ["adapter_type"] else []) ++
        (if ch.adapters then ["adapters"] else []) ++
        (if ch.bios_image then ["bios_image"] else []) ++
        (if ch.cdrom_image then ["cdrom_image"] else []) ++
        (if ch.cpus then ["cpus"] else []) ++
        (if ch.ram then ["ram"] else []) ++
        (if ch.console_type then ["console_type"] else []) ++
        (if ch.platform then ["platform"] else []) ++
        (if ch.hda_disk_image then ["hda_disk_image"] else []) ++
        (if ch.mac_address then ["mac_address"] else []) ++
        (if ch.options then ["options"] else []) ∧
      (qemuUpdateData d ch).map Prod.fst =
        (qemuUpdateTop d ch).map Prod.fst ++
        (if (qemuUpdateProperties d ch).isEmpty then [] else ["properties"]) ∧
      ((qemuUpdateData d ch).isEmpty = true →
        resourceGns3QemuUpdate config d ch r1 r2 = ⟨[], d, none⟩)) ∧
    (∀ (d : TemplateData) (ch : TemplateChanges) (r1 r2 : Response),
      (templateUpdateData d).map Prod.fst = ["name", "compute_id", "x", "y"] ∧
      (resourceGns3TemplateUpdate config d ch r1 r2).trace.head? =
        some { method := "PUT",
               url := config.host ++ "/v2/projects/" ++ d.project_id ++ "/nodes/" ++ d.id,
               body := some (.obj (templateUpdateData d)) }) ∧
    (∀ (d : DockerData) (ch : DockerChanges) (r1 r2 : Response),
      (dockerUpdateData d ch).map Prod.fst =
        (if ch.environment then ["environment"] else []) ∧
      (resourceGns3DockerUpdate config d ch r1 r2).trace.head? =
        some { method := "PUT",
               url := config.host ++ "/v2/projects/" ++ d.project_id ++ "/nodes/" ++ d.id,
               body := some (.obj (dockerUpdateData d ch)) }) := by
  refine ⟨fun d ch r1 r2 => ⟨?_, fun h => ?_⟩,
    fun d ch r1 r2 => ⟨?_, fun h => ?_⟩,
    fun d ch r1 r2 => ⟨?_, ?_, ?_, fun h => ?_⟩,
    fun d ch r1 r2 => ⟨?_, ?_⟩,
    fun d ch r1 r2 => ⟨?_, ?_⟩⟩
  · simp [cloudUpdateData, apply_ite (List.map Prod.fst)]
  · simp [resourceGns3CloudUpdate, h]
  · simp [switchUpdateData, apply_ite (List.map Prod.fst)]
  · simp [resourceGns3SwitchUpdate, h]
  · simp [qemuUpdateTop, apply_ite (List.map Prod.fst)]
  · simp [qemuUpdateProperties, apply_ite (List.map Prod.fst)]
  · simp [qemuUpdateData, apply_ite (List.map Prod.fst)]
  · simp [resourceGns3QemuUpdate, h]
  · simp [templateUpdateData]
  · unfold resourceGns3TemplateUpdate
    split <;> rfl
  · simp [dockerUpdateData, apply_ite (List.map Prod.fst)]
  · rw [dockerUpdate_trace]
    rfl

/-- An all-false QEMU change set. -/
def qchNone₀ : QemuChanges :=
  { name := false, x := false, y := false, symbol := false,
    adapter_type := false, adapters := false, bios_image := false,
    cdrom_image := false, cpus := false, ram := false, console_type := false,
    platform := false, hda_disk_image := false, mac_address := false,
    options := false }

/-- C2 amended, witnessed at concrete inputs: cloud and QEMU Updates with
nothing changed issue no request and succeed. -/
theorem update_minimal_delta_witness :
    resourceGns3CloudUpdate cfg₀ cloudD₀ chNone₀ r500 r500 = ⟨[], cloudD₀, none⟩ ∧
    resourceGns3QemuUpdate cfg₀ qemuD₀ qchNone₀ r500 r500 = ⟨[], qemuD₀, none⟩ := by
  constructor
  · exact (((update_minimal_delta cfg₀).1 cloudD₀ chNone₀ r500 r500).2 (by rfl))
  · exact (((update_minimal_delta cfg₀).2.2.1 qemuD₀ qchNone₀ r500 r500).2.2.2 (by rfl))

/-! ## C4: nested versus flat placement in update payloads -/

/-- Association-list lookup skips a prefix that does not bind the key. -/
theorem lookup_append_right (k : String) (l1 l2 : List (String × JVal))
    (h : k ∉ l1.map Prod.fst) : (l1 ++ l2).lookup k = l2.lookup k := by
  induction l1 with
  | nil => rfl
  | cons p t ih =>
    simp only [List.map_cons, List.mem_cons] at h
    push_neg at h
    have hb : (k == p.1) = false := beq_eq_false_iff_ne.mpr h.1
    simp [List.lookup, hb, ih h.2]

/-- The flat-field part of the QEMU update delta never binds `properties`. -/
theorem properties_not_in_qemuTop (d : QemuData) (ch : QemuChanges) :
    "properties" ∉ (qemuUpdateTop d ch).map Prod.fst := by
  intro hmem
  simp only [qemuUpdateTop, List.map_append, apply_ite (List.map Prod.fst),
    List.map_cons, List.map_nil, List.mem_append, or_assoc] at hmem
  rcases hmem with h | h | h | h <;> (revert h; split <;> simp)

/-- C4 counterexample: a Docker Update with a changed `environment` — a
field of the nested `properties` group in the creation payload — sends it at
the top level of the PUT body, under no `properties` key at all. -/
theorem docker_update_environment_at_top_level :
    (resourceGns3DockerUpdate cfg₀ dockerD₀
        { environment := true, start_command := false } r200 r404).trace.head? =
      some { method := "PUT", url := "http://h/v2/projects/p1/nodes/n1",
             body := some (JVal.obj [("environment", JVal.s "A=1")]) } ∧
    "environment" ∈ (JVal.obj [("environment", JVal.s "A=1")]).objKeys ∧
    "properties" ∉ (JVal.obj [("environment", JVal.s "A=1")]).objKeys := by
  refine ⟨?_, by decide, by decide⟩
  rw [dockerUpdate_trace]
  rfl

/-- C4 amended: for the QEMU kind the claim holds — changed nested fields
are batched under the single `properties` key of one PUT body, never at the
top level, and changed flat fields stay at the top level, never nested; for
the Docker kind the only transmitted change, `environment`, is placed at
the top level of the body with no `properties` key at all. -/
theorem nested_update_payload_placement (config : ProviderConfig) :
    (∀ (d : QemuData) (ch : QemuChanges),
      (qemuUpdateData d ch).lookup "properties" =
        (if (qemuUpdateProperties d ch).isEmpty then none
         else some (.obj (qemuUpdateProperties d ch))) ∧
      (qemuUpdateData d ch).map Prod.fst =
        (if ch.name then ["name"] else []) ++
        (if ch.x then ["x"] else []) ++
        (if ch.y then ["y"] else []) ++
        (if ch.symbol then ["symbol"] else []) ++
        (if (qemuUpdateProperties d ch).isEmpty then [] else ["properties"]) ∧
      (qemuUpdateProperties d ch).map Prod.fst =
        (if ch.adapter_type then ["adapter_type"] else []) ++
        (if ch.adapters then ["adapters"] else []) ++
        (if ch.bios_image then ["bios_image"] else []) ++
        (if ch.cdrom_image then ["cdrom_image"] else []) ++
        (if ch.cpus then ["cpus"] else []) ++
        (if ch.ram then ["ram"] else []) ++
        (if ch.console_type then ["console_type"] else []) ++
        (if ch.platform then ["platform"] else []) ++
        (if ch.hda_disk_image then ["hda_disk_image"] else []) ++
        (if ch.mac_address then ["mac_address"] else []) ++
        (if ch.options then ["options"] else [])) ∧
    (∀ (d : QemuData) (ch : QemuChanges) (r1 r2 : Response),
      (qemuUpdateData d ch).isEmpty = false →
      (resourceGns3QemuUpdate config d ch r1 r2).trace.head? =
        some { method := "PUT",
               url := config.host ++ "/v2/projects/" ++ d.project_id ++ "/nodes/" ++ d.id,
               body := some (.obj (qemuUpdateData d ch)) }) ∧
    (∀ (d : DockerData) (ch : DockerChanges),
      ch.environment = true →
      "environment" ∈ (dockerUpdateData d ch).map Prod.fst ∧
      "properties" ∉ (dockerUpdateData d ch).map Prod.fst ∧
      (dockerUpdateData d ch).lookup "properties" = none) := by
  refine ⟨fun d ch => ⟨?_, ?_, ?_⟩, fun d ch r1 r2 h => ?_, fun d ch h => ?_⟩
  · rw [qemuUpdateData, lookup_append_right _ _ _ (properties_not_in_qemuTop d ch)]
    by_cases hp : (qemuUpdateProperties d ch).isEmpty = true <;>
      simp [hp, List.lookup]
  · simp [qemuUpdateData, qemuUpdateTop, apply_ite (List.map Prod.fst)]
  · simp [qemuUpdateProperties, apply_ite (List.map Prod.fst)]
  · unfold resourceGns3QemuUpdate
    simp only [h, Bool.false_eq_true, if_false]
    split <;> rfl
  · refine ⟨?_, ?_, ?_⟩ <;> simp [dockerUpdateData, h, List.lookup]

/-- A QEMU change set with only `name` (flat) and `ram` (nested) changed. -/
def qchNameRam₀ : QemuChanges :=
  { name := true, x := false, y := false, symbol := false,
    adapter_type := false, adapters := false, bios_image := false,
    cdrom_image := false, cpus := false, ram := true, console_type := false,
    platform := false, hda_disk_image := false, mac_address := false,
    options := false }

/-- C4 amended, witnessed at concrete inputs: a QEMU Update changing `name`
and `ram` issues one PUT whose body has `name` and `properties` at the top
level with `ram` inside `properties`, and a Docker Update changing
`environment` puts it at the top level with no `properties` key. -/
theorem nested_update_payload_placement_witness :
    (resourceGns3QemuUpdate cfg₀ qemuD₀ qchNameRam₀ r200 r200).trace.head? =
      some { method := "PUT", url := "http://h/v2/projects/p1/nodes/n1",
             body := some (.obj [("name", JVal.s "q"),
               ("properties", .obj [("ram", JVal.i 256)])]) } ∧
    "properties" ∉ (dockerUpdateData dockerD₀
      { environment := true, start_command := false }).map Prod.fst := by
  constructor
  · have h := (nested_update_payload_placement cfg₀).2.1 qemuD₀ qchNameRam₀ r200 r200 rfl
    exact h
  · exact ((nested_update_payload_placement cfg₀).2.2 dockerD₀
      { environment := true, start_command := false } rfl).2.1

/-! ## C3: create status handling -/

/-- A 200 response whose body carries a `node_id`. -/
def okBody₀ : Response := { status := 200, body := .obj [("node_id", .s "n-1")] }

/-- A 201 response whose body carries a `node_id`. -/
def created201₀ : Response := { status := 201, body := .obj [("node_id", .s "n-1")] }

/-- C3 counterexample: the QEMU Create succeeds on a 200 response — success
is not exactly the 201 status for every kind. -/
theorem qemu_create_accepts_200 :
    (resourceGns3QemuCreate cfg₀ qemuD₀ okBody₀ r500 r200).err = none ∧
    (resourceGns3QemuCreate cfg₀ qemuD₀ okBody₀ r500 r200).state.id = "n-1" := by
  constructor <;> rfl

/-- C3 amended: the cloud, switch, template and Docker Creates fail exactly
on non-201 statuses — surfacing the response body in the error except for
the template kind, whose error carries only the status code — while the
QEMU Create also treats 200 as a success status. -/
theorem create_status_semantics (config : ProviderConfig) :
    (∀ (d : CloudData) (c : Response), c.status ≠ 201 →
      (resourceGns3CloudCreate config d c).err =
        some (.httpErr c.status (some c.body)) ∧
      (resourceGns3CloudCreate config d c).state = d) ∧
    (∀ (d : SwitchData) (c : Response), c.status ≠ 201 →
      (resourceGns3SwitchCreate config d c).err =
        some (.httpErr c.status (some c.body)) ∧
      (resourceGns3SwitchCreate config d c).state = d) ∧
    (∀ (d : TemplateData) (c s : Response), c.status ≠ 201 →
      (resourceGns3TemplateCreate config d c s).err =
        some (.httpErr c.status none) ∧
      (resourceGns3TemplateCreate config d c s).state = d) ∧
    (∀ (d : DockerData) (c s : Response), c.status ≠ 201 →
      (resourceGns3DockerCreate config d c s).err =
        some (.httpErr c.status (some c.body)) ∧
      (resourceGns3DockerCreate config d c s).state = d) ∧
    (∀ (d : QemuData) (c s r : Response), c.status ≠ 201 → c.status ≠ 200 →
      (resourceGns3QemuCreate config d c s r).err =
        some (.httpErr c.status (some c.body)) ∧
      (resourceGns3QemuCreate config d c s r).state = d) ∧
    (∀ (d : QemuData) (c s r : Response),
      c.status = 200 → (c.body.getStr "node_id").getD "" ≠ "" →
      d.start_vm = false → r.status = 200 →
      (resourceGns3QemuCreate config d c s r).err = none ∧
      (resourceGns3QemuCreate config d c s r).state.id =
        (c.body.getStr "node_id").getD "") := by
  refine ⟨fun d c h => ?_, fun d c h => ?_, fun d c s h => ?_, fun d c s h => ?_,
    fun d c s r h1 h2 => ?_, fun d c s r h200 hnid hsv hr => ?_⟩
  · simp [resourceGns3CloudCreate, h]
  · simp [resourceGns3SwitchCreate, h]
  · simp [resourceGns3TemplateCreate, h]
  · simp [resourceGns3DockerCreate, h]
  · simp [resourceGns3QemuCreate, h1, h2]
  · have h404 : r.status ≠ 404 := by simp [hr]
    simp [resourceGns3QemuCreate, h200, hnid, hsv, qemuRead_err, qemuRead_id,
      h404, hr]

/-- C3 amended, witnessed at concrete inputs: a cloud Create answered 500
fails surfacing the body, and a QEMU Create answered 200 succeeds. -/
theorem create_status_semantics_witness :
    (resourceGns3CloudCreate cfg₀ cloudD₀ r500).err =
      some (OpError.httpErr 500 (some (JVal.s "boom"))) ∧
    (resourceGns3QemuCreate cfg₀ qemuD₀ okBody₀ r500 r200).err = none := by
  constructor
  · exact ((create_status_semantics cfg₀).1 cloudD₀ r500 (by decide)).1
  · exact ((create_status_semantics cfg₀).2.2.2.2.2 qemuD₀ okBody₀ r500 r200
      rfl (by decide) rfl rfl).1

/-! ## C5: identity after a failed Create -/

/-- A Docker instance not yet created, with the post-create start step
requested. -/
def dockerStartD₀ : DockerData :=
  { id := "", project_id := "p1", name := "d", compute_id := "local",
    image := "img", environment := [], x := 0, y := 0, extra_volumes := [],
    docker_id := "", start_command := "", start := true }

/-- A template instance not yet created, with the post-create start step
requested. -/
def tmplStartD₀ : TemplateData :=
  { id := "", project_id := "p1", template_id := "t1", name := "t",
    compute_id := "local", start := true, x := 0, y := 0 }

/-- C5 counterexample: a Docker Create whose creation request succeeds (201,
identity decoded) but whose start step fails returns an error with the
identity already assigned — a failed Create does not always leave the
identity empty. -/
theorem docker_create_start_failure_keeps_id :
    (resourceGns3DockerCreate cfg₀ dockerStartD₀ created201₀ r500).err =
      some (OpError.httpErr 500 (some (JVal.s "boom"))) ∧
    (resourceGns3DockerCreate cfg₀ dockerStartD₀ created201₀ r500).state.id = "n-1" := by
  constructor <;> rfl

/-- C5 amended: a Create that fails before the server-assigned identity is
decoded (non-created status, or missing identity in the response) leaves the
identity unchanged, and for the cloud and switch kinds — which have no
post-create step — every failing Create does; but for the template, Docker
and QEMU kinds, once the creation request has succeeded and the identity is
assigned, a failing start step is reported as an error with the identity
already set. -/
theorem create_failure_identity (config : ProviderConfig) :
    (∀ (d : CloudData) (c : Response),
      (resourceGns3CloudCreate config d c).err ≠ none →
      (resourceGns3CloudCreate config d c).state.id = d.id) ∧
    (∀ (d : SwitchData) (c : Response),
      (resourceGns3SwitchCreate config d c).err ≠ none →
      (resourceGns3SwitchCreate config d c).state.id = d.id) ∧
    (∀ (d : TemplateData) (c s : Response),
      (c.status ≠ 201 →
        (resourceGns3TemplateCreate config d c s).state.id = d.id) ∧
      ((c.body.getStr "node_id").getD "" = "" →
        (resourceGns3TemplateCreate config d c s).state.id = d.id) ∧
      (c.status = 201 → (c.body.getStr "node_id").getD "" ≠ "" →
        d.start = true → s.status ≠ 200 →
        (resourceGns3TemplateCreate config d c s).err ≠ none ∧
        (resourceGns3TemplateCreate config d c s).state.id =
          (c.body.getStr "node_id").getD "")) ∧
    (∀ (d : DockerData) (c s : Response),
      (c.status ≠ 201 →
        (resourceGns3DockerCreate config d c s).state.id = d.id) ∧
      ((c.body.getStr "node_id").getD "" = "" →
        (resourceGns3DockerCreate config d c s).state.id = d.id) ∧
      (c.status = 201 → (c.body.getStr "node_id").getD "" ≠ "" →
        d.start = true → s.status ≠ 200 →
        (resourceGns3DockerCreate config d c s).err ≠ none ∧
        (resourceGns3DockerCreate config d c s).state.id =
          (c.body.getStr "node_id").getD "")) ∧
    (∀ (d : QemuData) (c s r : Response),
      ((c.status ≠ 201 ∧ c.status ≠ 200) →
        (resourceGns3QemuCreate config d c s r).state.id = d.id) ∧
      ((c.body.getStr "node_id").getD "" = "" →
        (resourceGns3QemuCreate config d c s r).state.id = d.id) ∧
      (c.status = 201 → (c.body.getStr "node_id").getD "" ≠ "" →
        d.start_vm = true → s.status ≠ 200 →
        (resourceGns3QemuCreate config d c s r).err ≠ none ∧
        (resourceGns3QemuCreate config d c s r).state.id =
          (c.body.getStr "node_id").getD "")) := by
  refine ⟨fun d c => ?_, fun d c => ?_,
    fun d c s => ⟨fun h1 => ?_, fun h2 => ?_, fun h1 h2 h3 h4 => ?_⟩,
    fun d c s => ⟨fun h1 => ?_, fun h2 => ?_, fun h1 h2 h3 h4 => ?_⟩,
    fun d c s r => ⟨fun h1 => ?_, fun h2 => ?_, fun h1 h2 h3 h4 => ?_⟩⟩
  · by_cases h1 : c.status = 201 <;>
      by_cases h2 : (c.body.getStr "node_id").getD "" = "" <;>
      simp [resourceGns3CloudCreate, h1, h2]
  · by_cases h1 : c.status = 201 <;>
      by_cases h2 : (c.body.getStr "node_id").getD "" = "" <;>
      simp [resourceGns3SwitchCreate, h1, h2]
  · by_cases h2 : (c.body.getStr "node_id").getD "" = "" <;>
      simp [resourceGns3TemplateCreate, h1, h2]
  · by_cases h1 : c.status = 201 <;> by_cases h3 : d.start = true <;>
      by_cases h4 : s.status = 200 <;>
      simp [resourceGns3TemplateCreate, h1, h2, h3, h4]
  · simp [resourceGns3TemplateCreate, h1, h2, h3, h4]
  · by_cases h2 : (c.body.getStr "node_id").getD "" = "" <;>
      simp [resourceGns3DockerCreate, h1, h2]
  · by_cases h1 : c.status = 201 <;> by_cases h3 : d.start = true <;>
      by_cases h4 : s.status = 200 <;>
      simp [resourceGns3DockerCreate, h1, h2, h3, h4]
  · simp [resourceGns3DockerCreate, h1, h2, h3, h4]
  · by_cases h2 : (c.body.getStr "node_id").getD "" = "" <;>
      simp [resourceGns3QemuCreate, h1, h2]
  · by_cases ha : c.status = 201 <;> by_cases hb : c.status = 200 <;>
      by_cases h3 : d.start_vm = true <;> by_cases h4 : s.status = 200 <;>
      by_cases hr4 : r.status = 404 <;> by_cases hr2 : r.status = 200 <;>
      simp [resourceGns3QemuCreate, ha, hb, h2, h3, h4, qemuRead_id, hr4, hr2]
  · simp [resourceGns3QemuCreate, h1, h2, h3, h4]

/-- C5 amended, witnessed at concrete inputs: a cloud Create answered 500
keeps the (empty or prior) identity, while a template Create whose creation
succeeded but whose start step failed errors with the identity set. -/
theorem create_failure_identity_witness :
    (resourceGns3CloudCreate cfg₀ cloudD₀ r500).state.id = cloudD₀.id ∧
    (resourceGns3TemplateCreate cfg₀ tmplStartD₀ created201₀ r500).err ≠ none ∧
    (resourceGns3TemplateCreate cfg₀ tmplStartD₀ created201₀ r500).state.id = "n-1" := by
  have h := ((create_failure_identity cfg₀).2.2.1 tmplStartD₀ created201₀ r500).2.2
    rfl (by decide) rfl (by decide)
  refine ⟨?_, h.1, h.2⟩
  exact (create_failure_identity cfg₀).1 cloudD₀ r500
    (by simp [resourceGns3CloudCreate, cfg₀, cloudD₀, r500])
